import Mathlib

/-!
Verification of the time-accounting and sleep-state core of the
ParkingGarageAssistant sketch
(`src/parking_assist_stoplight_V2_11_modified_by_Coolman111.ino`).

The sketch runs on an 8-bit AVR, where `unsigned long` is 32 bits and
`int` is 16 bits.  The embedding models `unsigned long` values as `Nat`
reduced modulo `2^32` at every arithmetic step that the C code performs
on `unsigned long`, and the 16-bit signed `int` variable `timeout` as an
`Int` obtained through an explicit uint32 → int16 conversion.
-/

namespace ParkingAssist

/-- `2^32`, the modulus of AVR `unsigned long` arithmetic. -/
def M32 : Nat := 4294967296

/-- Source line 284: `unsigned long up_mi_max = 4294967294;` — the constant
the sketch uses to bridge a `millis()` wrap. -/
def up_mi_max : Nat := 4294967294

/-- uint32 addition (C `a + b` on `unsigned long` operands). -/
def add32 (a b : Nat) : Nat := (a + b) % M32

/-- uint32 subtraction (C `a - b` on `unsigned long` operands, both `< 2^32`). -/
def sub32 (a b : Nat) : Nat := (a + M32 - b % M32) % M32

/-- Conversion of a uint32 value to AVR's 16-bit signed `int`
(implementation-defined in C++, modular on avr-gcc). -/
def toInt16 (n : Nat) : Int :=
  let r := n % 65536
  if r < 32768 then (r : Int) else (r : Int) - 65536

/-- Source line 334: `#define LED_TIMEOUT 15` (EU build, the active one). -/
def LED_TIMEOUT : Nat := 15

/-- Source line 335: `#define DISPLAY_TIMEOUT 15` (EU build). -/
def DISPLAY_TIMEOUT : Nat := 15

/-- The global mutable variables of the sketch that the time-accounting and
display-sleep code reads or writes (source lines 243-294).  All
`unsigned long` fields are kept `< 2^32`; `timeout` is a C `int`. -/
structure SysState where
  up_mi_old : Nat       -- last raw millis() reading seen by the accumulator
  up_mi : Nat           -- scratch: current millis() reading
  up_sec : Nat          -- accumulated uptime in seconds
  up_sec_old : Nat      -- previous up_sec, for overflow detection
  diff_mi : Nat         -- scratch: last delta in milliseconds
  diff_sec : Nat        -- scratch: last delta in whole seconds
  displaysleeping : Nat -- 1 = display powered off, 0 = on
  dst_start : Nat       -- sleep window start (uptime seconds)
  dst_end : Nat         -- sleep window end (uptime seconds)
  dst_dur : Nat         -- last sleep window duration
  c_dst : Nat           -- cumulative display sleep time (seconds)
  c_dwt : Nat           -- display wake time (seconds), derived
  c_uptime : Nat        -- uptime snapshot used by the info screen
  start_timeout : Nat   -- millis() timestamp when the stationary timer began
  timeout : Int         -- elapsed stationary seconds (C 16-bit int)
  leds_off : Nat        -- 1 = LED tiers suppressed
  dimmed : Nat          -- 1 = display dimmed
  last_outofrange : Nat -- millis() timestamp of last out-of-range handling
  deriving Repr, DecidableEq

/-- Source lines 1098-1141, `update_up_sec_from_millis()`, together with the
Boolean "up_sec overflow has happened" diagnostic print of lines 1126-1130.
`m` is the value returned by `millis()` during the call. -/
def update_up_sec_core (m : Nat) (s : SysState) : SysState × Bool :=
  let up_sec_old := s.up_sec
  let up_mi := m % M32
  let diff_mi :=
    if up_mi ≥ s.up_mi_old then
      up_mi - s.up_mi_old
    else
      add32 (sub32 up_mi_max s.up_mi_old) up_mi
  let up_mi_old := up_mi
  let diff_sec := diff_mi / 1000
  let up_sec := add32 s.up_sec diff_sec
  let reported := decide (up_sec < up_sec_old)
  (⟨up_mi_old, up_mi, up_sec, up_sec, diff_mi, diff_sec,
    s.displaysleeping, s.dst_start, s.dst_end, s.dst_dur, s.c_dst, s.c_dwt,
    s.c_uptime, s.start_timeout, s.timeout, s.leds_off, s.dimmed,
    s.last_outofrange⟩, reported)

/-- `update_up_sec_from_millis()` as a state transformer (the diagnostic is a
serial print and does not feed back into the state). -/
def update_up_sec_from_millis (m : Nat) (s : SysState) : SysState :=
  (update_up_sec_core m s).1

/-- Source lines 1219-1226, `reset_LEDTimeout()`: restart the stationary
timer, switch LEDs back on and undim the display. -/
def reset_LEDTimeout (s : SysState) : SysState :=
  { s with start_timeout := 0, timeout := 0, leds_off := 0, dimmed := 0 }

/-- Source lines 1245-1253, `sleepDisplay()`: power the display off, resync
the uptime counter and open the sleep window at the current uptime.
`m` is the `millis()` value during the embedded resync. -/
def sleepDisplay (m : Nat) (s : SysState) : SysState :=
  let s := { s with displaysleeping := 1 }
  let s := update_up_sec_from_millis m s
  { s with dst_start := s.up_sec }

/-- Source lines 1229-1242, `go_sleepDisplay()`: enter sleep mode only when
the display is not already sleeping (the body also prints a farewell screen,
which has no modelled state). -/
def go_sleepDisplay (m : Nat) (s : SysState) : SysState :=
  if s.displaysleeping = 0 then
    sleepDisplay m { s with displaysleeping := 1 }
  else
    s

/-- Source lines 1256-1287, `wakeDisplay()`: undim; if the display was
asleep, power it on, resync uptime, close the sleep window (adding its
duration to `c_dst` only when strictly positive) and re-base the window. -/
def wakeDisplay (m : Nat) (s : SysState) : SysState :=
  let s := { s with dimmed := 0 }
  if s.displaysleeping = 1 then
    let s := { s with displaysleeping := 0 }
    let s := update_up_sec_from_millis m s
    let s := { s with dst_end := s.up_sec }
    let s :=
      if s.dst_end > s.dst_start then
        { s with dst_dur := s.dst_end - s.dst_start,
                 c_dst := add32 s.c_dst (s.dst_end - s.dst_start) }
      else s
    let s := { s with dst_start := s.dst_end }
    { s with last_outofrange := m % M32 }
  else
    s

/-- A manual wake event (encoder switch, source lines 557-564, or a button
while the display sleeps, lines 580-585 and 624-633): the sketch calls
`reset_LEDTimeout()` and then `wakeDisplay(&display)`. -/
def manualWake (m : Nat) (s : SysState) : SysState :=
  wakeDisplay m (reset_LEDTimeout s)

/-- Source lines 800-851, the in-range/stationary branch of `loop()`
(`distance < light3`, the 500 ms re-measure gate has elapsed and
`move_ps < range_diff`, i.e. the car has not moved): the stationary timer is
advanced, the LED/dim state is derived from it, and after
`LED_TIMEOUT + DISPLAY_TIMEOUT` the display is put to sleep.  `m` is the
`millis()` value of this pass. -/
def stationaryTick (m : Nat) (s : SysState) : SysState :=
  let mm := m % M32
  let s := { s with last_outofrange := mm }
  let s :=
    if s.timeout > 998 then
      { s with start_timeout := sub32 mm ((LED_TIMEOUT + 1) * 1000) }
    else s
  let s :=
    if s.start_timeout = 0 then
      { s with start_timeout := mm, timeout := 0 }
    else s
  let s := { s with timeout := toInt16 (sub32 mm s.start_timeout / 1000) }
  let s :=
    if s.timeout > (LED_TIMEOUT : Int) then
      { s with leds_off := 1, dimmed := 1 }
    else
      wakeDisplay m { s with leds_off := 0 }
  if s.timeout > (LED_TIMEOUT : Int) + (DISPLAY_TIMEOUT : Int) then
    go_sleepDisplay m s
  else s

/-- Source lines 1057-1095, `display_uptime_info()` (state effects only):
resync uptime, snapshot it into `c_uptime`, and derive the displayed wake
time `c_dwt = c_uptime - c_dst` by plain uint32 subtraction (line 1070). -/
def display_uptime_info (m : Nat) (s : SysState) : SysState :=
  let s := update_up_sec_from_millis m s
  let s := { s with c_uptime := s.up_sec }
  { s with c_dwt := sub32 s.c_uptime s.c_dst }

/-- Source line 323 (EU build): `light0s = 15`, the fixed warning offset. -/
def light0s : Nat := 15

/-- Source line 326 (EU build): `light2s = 30`, the yellow band width. -/
def light2s : Nat := 30

/-- Source line 327 (EU build): `light3s = 30`, the green band width. -/
def light3s : Nat := 30

/-- Source line 333 (EU build): `warning_limit = light1s = 30`; initialised
once and never reassigned. -/
def warning_limit : Nat := 30

/-- Source lines 766-776 of `loop()`: the warning-light threshold derived
from the current stop distance `light1` (C `int` division; `light1` is
clamped to `[18, 150]` beforehand, so `Nat` arithmetic is exact). -/
def light0_of (light1 : Nat) : Nat :=
  if light1 < warning_limit then light1 / 2 else light1 - light0s

/-- The indicator tier rendered by the LED block. -/
inductive Tier where
  | OFF
  | GREEN
  | YELLOW
  | RED
  | WARNING
  deriving Repr, DecidableEq

/-- Source lines 898-945 of `loop()` with `leds_off == 0`: the if/else chain
selecting which LEDs to drive from the measured `distance` (a C `float`,
modelled as a rational) and the thresholds `light0 < light1 < light2 <
light3` derived on lines 749-776. -/
def ledTier (distance : ℚ) (light1 : Nat) : Tier :=
  let light2 := light1 + light2s
  let light3 := light2 + light3s
  let light0 := light0_of light1
  if distance < (light0 : ℚ) then .WARNING
  else if distance < (light1 : ℚ) then .RED
  else if (light1 : ℚ) ≤ distance ∧ distance < (light2 : ℚ) then .YELLOW
  else if (light2 : ℚ) ≤ distance ∧ distance < (light3 : ℚ) then .GREEN
  else .OFF

/-- The tier rule exactly as the specification words it (spec §4.2), for
comparison with `ledTier`: WARNING below the warning threshold, RED up to
the stop distance, then a yellow band and a green band, OFF beyond. -/
def ledTierSpec (distance : ℚ) (stop : Nat) : Tier :=
  let w := if stop < warning_limit then stop / 2 else stop - light0s
  if distance < (w : ℚ) then .WARNING
  else if (w : ℚ) ≤ distance ∧ distance < (stop : ℚ) then .RED
  else if (stop : ℚ) ≤ distance ∧ distance < ((stop + light2s : Nat) : ℚ) then .YELLOW
  else if ((stop + light2s : Nat) : ℚ) ≤ distance ∧
          distance < ((stop + light2s + light3s : Nat) : ℚ) then .GREEN
  else .OFF

/-- The persistent-storage collaborator: the byte at `E_address` plus a
count of physical write operations performed on it. -/
structure EEPROMState where
  cell : Nat
  writes : Nat
  deriving Repr, DecidableEq

/-- Modelled from the spec: `EEPROM.update` of the AVR EEPROM library (not
part of this repository); spec §1 describes the storage collaborator as
exposing "write-if-changed(address, byte)", so a physical write happens
only when the new byte differs from the stored one. -/
def eeprom_update (v : Nat) (e : EEPROMState) : EEPROMState :=
  if e.cell ≠ v then { cell := v, writes := e.writes + 1 } else e

/-- Source lines 576-615, the STORE-TO-EEPROM button branch of `loop()`
(display not sleeping): read the stored byte into `E_value` and call
`EEPROM.update(E_address, light1)` only when it differs from `light1`. -/
def storeButtonPress (light1 : Nat) (e : EEPROMState) : EEPROMState :=
  let E_value := e.cell
  if E_value ≠ light1 then eeprom_update light1 e else e

/-- Left-pad a string to width `w` with the character `c`, as C `sprintf`
field-width padding does. -/
def padLeft (c : Char) (w : Nat) (s : String) : String :=
  String.mk (List.replicate (w - s.length) c) ++ s

/-- Source lines 1146-1162, `ConvertSectoDay()`: decompose a second count
into days/hours/minutes/seconds and render it with
`sprintf("%5lud%02d:%02d:%02d", ...)`. -/
def ConvertSectoDay (n : Nat) : String :=
  let days := n / 86400
  let hours := n % 86400 / 3600
  let minutes := n % 86400 % 3600 / 60
  let seconds := n % 86400 % 3600 % 60
  padLeft ' ' 5 (toString days) ++ "d" ++
  padLeft '0' 2 (toString hours) ++ ":" ++
  padLeft '0' 2 (toString minutes) ++ ":" ++
  padLeft '0' 2 (toString seconds)

/-- The global-variable state at boot: every modelled variable is
zero-initialised (source lines 243-294). -/
def bootState : SysState := ⟨0, 0, 0, 0, 0, 0, 0, 0, 0, 0, 0, 0, 0, 0, 0, 0, 0, 0⟩

/-- The millisecond delta computed inside `update_up_sec_from_millis`
(source lines 1114-1121), as a standalone function for stating lemmas. -/
def resync_diff_mi (m : Nat) (s : SysState) : Nat :=
  if s.up_mi_old ≤ m % M32 then m % M32 - s.up_mi_old
  else add32 (sub32 up_mi_max s.up_mi_old) (m % M32)

lemma update_up_sec_core_spec (m : Nat) (s : SysState) :
    update_up_sec_core m s =
      ({ s with up_mi_old := m % M32, up_mi := m % M32,
                up_sec := add32 s.up_sec (resync_diff_mi m s / 1000),
                up_sec_old := add32 s.up_sec (resync_diff_mi m s / 1000),
                diff_mi := resync_diff_mi m s,
                diff_sec := resync_diff_mi m s / 1000 },
       decide (add32 s.up_sec (resync_diff_mi m s / 1000) < s.up_sec)) := rfl

lemma update_up_sec_spec (m : Nat) (s : SysState) :
    update_up_sec_from_millis m s =
      { s with up_mi_old := m % M32, up_mi := m % M32,
               up_sec := add32 s.up_sec (resync_diff_mi m s / 1000),
               up_sec_old := add32 s.up_sec (resync_diff_mi m s / 1000),
               diff_mi := resync_diff_mi m s,
               diff_sec := resync_diff_mi m s / 1000 } := rfl

lemma add32_lt (a b : Nat) : add32 a b < M32 :=
  Nat.mod_lt _ (by decide)

lemma resync_diff_mi_eq (m : Nat) (s : SysState) (hm : m < M32)
    (hold : s.up_mi_old ≤ up_mi_max) :
    resync_diff_mi m s =
      if s.up_mi_old ≤ m then m - s.up_mi_old
      else (up_mi_max - s.up_mi_old) + m := by
  unfold resync_diff_mi add32 sub32
  rw [Nat.mod_eq_of_lt hm]
  revert hold hm
  unfold M32 up_mi_max
  split_ifs <;> omega

/-- C1: a resync call computes the bridging delta exactly as claimed —
`raw_now − last_raw` when `raw_now ≥ last_raw`, and
`(RAW_MAX − last_raw) + raw_now` with `RAW_MAX = 4294967294` on a wrap —
and advances `up_sec` by exactly `delta / 1000` (truncating integer
division, modulo the 32-bit width of `up_sec`). -/
theorem C1_resync_delta (m : Nat) (s : SysState) (d : Nat)
    (hm : m < M32) (hold : s.up_mi_old ≤ up_mi_max)
    (hd : d = if s.up_mi_old ≤ m then m - s.up_mi_old
              else (up_mi_max - s.up_mi_old) + m) :
    (update_up_sec_from_millis m s).diff_mi = d ∧
    (update_up_sec_from_millis m s).diff_sec = d / 1000 ∧
    (update_up_sec_from_millis m s).up_sec = (s.up_sec + d / 1000) % M32 := by
  rw [update_up_sec_spec, hd, ← resync_diff_mi_eq m s hm hold]
  exact ⟨rfl, rfl, rfl⟩

/-- C1 witness: the claimed wrap example — a previous reading of 4294967290
followed by 4 yields a bridging delta of exactly 8 ms and adds
`8 / 1000 = 0` whole seconds — and a truncation example: a delta of
1999 ms adds exactly 1 second, never rounded up. -/
theorem C1_resync_delta_witness :
    ((4 : Nat) < M32 ∧
     (update_up_sec_from_millis 4
        ⟨4294967290, 0, 100, 0, 0, 0, 0, 0, 0, 0, 0, 0, 0, 0, 0, 0, 0, 0⟩).diff_mi = 8 ∧
     (update_up_sec_from_millis 4
        ⟨4294967290, 0, 100, 0, 0, 0, 0, 0, 0, 0, 0, 0, 0, 0, 0, 0, 0, 0⟩).up_sec =
       (100 + 8 / 1000) % M32) ∧
    ((update_up_sec_from_millis 1999 bootState).diff_sec = 1999 / 1000 ∧
     (update_up_sec_from_millis 1999 bootState).up_sec = (0 + 1999 / 1000) % M32) := by
  have h1 := C1_resync_delta 4
    ⟨4294967290, 0, 100, 0, 0, 0, 0, 0, 0, 0, 0, 0, 0, 0, 0, 0, 0, 0⟩ 8
    (by decide) (by decide) (by decide)
  have h2 := C1_resync_delta 1999 bootState 1999 (by decide) (by decide) (by decide)
  exact ⟨⟨by decide, h1.1, h1.2.2⟩, h2.2.1, h2.2.2⟩

/-- C3: across any resync call, `up_sec` never decreases silently — either
the new value is at least the old one, or the accounting-overflow
diagnostic fires; the diagnostic fires exactly when the value decreased;
and the system keeps the new (possibly smaller) value as the new baseline
(`up_sec` is the computed sum, never clamped, and `up_sec_old` is re-based
to it). -/
theorem C3_monotonic_or_reported (m : Nat) (s : SysState) :
    (s.up_sec ≤ (update_up_sec_core m s).1.up_sec ∨
       (update_up_sec_core m s).2 = true) ∧
    ((update_up_sec_core m s).1.up_sec < s.up_sec →
       (update_up_sec_core m s).2 = true) ∧
    ((update_up_sec_core m s).2 = true →
       (update_up_sec_core m s).1.up_sec < s.up_sec) ∧
    (update_up_sec_core m s).1.up_sec =
      add32 s.up_sec (update_up_sec_core m s).1.diff_sec ∧
    (update_up_sec_core m s).1.up_sec_old = (update_up_sec_core m s).1.up_sec := by
  rw [update_up_sec_core_spec]
  refine ⟨?_, ?_, ?_, rfl, rfl⟩
  · simp only [decide_eq_true_eq]; omega
  · simp only [decide_eq_true_eq]; omega
  · simp only [decide_eq_true_eq]; omega

/-- C3 witness: a resync that overflows the 32-bit `up_sec` (old value
4294967295, delta 2000 ms) yields the smaller value 1 and the diagnostic
fires. -/
theorem C3_monotonic_or_reported_witness :
    (update_up_sec_core 2000
       ⟨0, 0, 4294967295, 0, 0, 0, 0, 0, 0, 0, 0, 0, 0, 0, 0, 0, 0, 0⟩).1.up_sec <
      4294967295 ∧
    (update_up_sec_core 2000
       ⟨0, 0, 4294967295, 0, 0, 0, 0, 0, 0, 0, 0, 0, 0, 0, 0, 0, 0, 0⟩).2 = true := by
  have h := C3_monotonic_or_reported 2000
    ⟨0, 0, 4294967295, 0, 0, 0, 0, 0, 0, 0, 0, 0, 0, 0, 0, 0, 0, 0⟩
  exact ⟨by decide, h.2.1 (by decide)⟩

/-- C7: resync is idempotent within a wrap epoch — a second call with the
same raw millis reading adds exactly zero seconds to `up_sec`. -/
theorem C7_resync_idempotent (m : Nat) (s : SysState) :
    (update_up_sec_from_millis m (update_up_sec_from_millis m s)).up_sec =
      (update_up_sec_from_millis m s).up_sec := by
  rw [update_up_sec_spec, update_up_sec_spec]
  simp only [resync_diff_mi]
  simp only [le_refl, if_true, Nat.sub_self, Nat.zero_div]
  simp only [add32, M32]
  omega

/-- C2 counterexample: with cumulative uptime 5 s and cumulative sleep 10 s,
`display_uptime_info` reports the wake time as 4294967291 — the wrapped
unsigned subtraction, not a sentinel or clamped value. -/
theorem C2_counterexample :
    (display_uptime_info 0
       ⟨0, 0, 5, 0, 0, 0, 0, 0, 0, 0, 10, 0, 0, 0, 0, 0, 0, 0⟩).c_uptime = 5 ∧
    (display_uptime_info 0
       ⟨0, 0, 5, 0, 0, 0, 0, 0, 0, 0, 10, 0, 0, 0, 0, 0, 0, 0⟩).c_dst = 10 ∧
    (display_uptime_info 0
       ⟨0, 0, 5, 0, 0, 0, 0, 0, 0, 0, 10, 0, 0, 0, 0, 0, 0, 0⟩).c_dwt = 4294967291 := by
  decide

/-- C2 amended: `display_uptime_info` derives the wake time by plain 32-bit
unsigned subtraction — when sleep does not exceed uptime it is the true
difference, but when `c_dst` exceeds the uptime snapshot the reported value
is the wrapped `2^32 − (c_dst − c_uptime)`, which is strictly larger than
the uptime itself (no sentinel and no clamping is applied). -/
theorem C2_wake_time_wraps (m : Nat) (s : SysState) (h : s.c_dst < M32) :
    (s.c_dst ≤ (display_uptime_info m s).c_uptime →
       (display_uptime_info m s).c_dwt =
         (display_uptime_info m s).c_uptime - s.c_dst) ∧
    ((display_uptime_info m s).c_uptime < s.c_dst →
       (display_uptime_info m s).c_dwt =
         M32 - (s.c_dst - (display_uptime_info m s).c_uptime) ∧
       (display_uptime_info m s).c_uptime < (display_uptime_info m s).c_dwt) := by
  unfold display_uptime_info
  rw [update_up_sec_spec]
  have hu : add32 s.up_sec (resync_diff_mi m s / 1000) < M32 := add32_lt _ _
  revert hu h
  generalize add32 s.up_sec (resync_diff_mi m s / 1000) = u
  intro h hu
  dsimp only
  simp only [sub32, M32] at *
  constructor
  · intro hle; omega
  · intro hlt; omega

/-- C2 amended witness: at uptime 5 s and cumulative sleep 10 s the second
branch applies and 4294967291 is indeed larger than the uptime. -/
theorem C2_wake_time_wraps_witness :
    (10 : Nat) < M32 ∧
    (display_uptime_info 0
       ⟨0, 0, 5, 0, 0, 0, 0, 0, 0, 0, 10, 0, 0, 0, 0, 0, 0, 0⟩).c_dwt =
      M32 - (10 - 5) ∧
    (display_uptime_info 0
       ⟨0, 0, 5, 0, 0, 0, 0, 0, 0, 0, 10, 0, 0, 0, 0, 0, 0, 0⟩).c_uptime <
      (display_uptime_info 0
       ⟨0, 0, 5, 0, 0, 0, 0, 0, 0, 0, 10, 0, 0, 0, 0, 0, 0, 0⟩).c_dwt := by
  have h := (C2_wake_time_wraps 0
    ⟨0, 0, 5, 0, 0, 0, 0, 0, 0, 0, 10, 0, 0, 0, 0, 0, 0, 0⟩ (by decide)).2 (by decide)
  refine ⟨by decide, ?_, h.2⟩
  have h5 : (display_uptime_info 0
      ⟨0, 0, 5, 0, 0, 0, 0, 0, 0, 0, 10, 0, 0, 0, 0, 0, 0, 0⟩).c_uptime = 5 := by decide
  rw [h.1, h5]

/-- C9: formatting the maximal 32-bit second count 4294967295 with
`ConvertSectoDay` yields exactly `"49710d06:28:15"`, confirming the
day/hour/minute/second decomposition and the `{days}d{HH}:{MM}:{SS}`
rendering at the boundary. -/
theorem C9_format_max :
    ConvertSectoDay 4294967295 = "49710d06:28:15" ∧
    ConvertSectoDay 4294967295 =
      padLeft ' ' 5 (toString (4294967295 / 86400)) ++ "d" ++
      padLeft '0' 2 (toString (4294967295 % 86400 / 3600)) ++ ":" ++
      padLeft '0' 2 (toString (4294967295 % 86400 % 3600 / 60)) ++ ":" ++
      padLeft '0' 2 (toString (4294967295 % 86400 % 3600 % 60)) := by
  exact ⟨by decide, rfl⟩

/-- C10: redundant power requests do not touch the sleep accounting —
`go_sleepDisplay` on an already-sleeping display changes nothing at all,
and `wakeDisplay` on a non-sleeping display changes only the dimming flag,
leaving `c_dst`, `dst_start`, `dst_end` and `displaysleeping` as they were. -/
theorem C10_redundant_requests (m : Nat) (s : SysState) :
    (s.displaysleeping = 1 → go_sleepDisplay m s = s) ∧
    (s.displaysleeping = 0 → wakeDisplay m s = { s with dimmed := 0 }) := by
  constructor
  · intro h
    unfold go_sleepDisplay
    rw [if_neg (by omega)]
  · intro h
    unfold wakeDisplay
    rw [if_neg (by simpa using by omega : ¬({ s with dimmed := 0 } : SysState).displaysleeping = 1)]

/-- C10 witness: concrete redundant requests — a second sleep request on a
sleeping display (window started at 3 s, 5 s already accumulated) is a
no-op, and a wake request on an awake, dimmed display only undims. -/
theorem C10_redundant_requests_witness :
    go_sleepDisplay 7 ⟨0, 0, 9, 0, 0, 0, 1, 3, 0, 0, 5, 0, 0, 0, 0, 0, 1, 0⟩ =
      ⟨0, 0, 9, 0, 0, 0, 1, 3, 0, 0, 5, 0, 0, 0, 0, 0, 1, 0⟩ ∧
    wakeDisplay 7 ⟨0, 0, 9, 0, 0, 0, 0, 3, 4, 0, 5, 0, 0, 0, 0, 0, 1, 0⟩ =
      ⟨0, 0, 9, 0, 0, 0, 0, 3, 4, 0, 5, 0, 0, 0, 0, 0, 0, 0⟩ := by
  constructor
  · exact (C10_redundant_requests 7 _).1 rfl
  · rw [(C10_redundant_requests 7 _).2 rfl]

/-- C8: the store button performs a physical EEPROM write exactly when the
current stop distance differs from the stored byte; when they are equal the
cell is untouched; and two presses with the same (initially different)
value produce exactly one physical write and leave the value stored. -/
theorem C8_store_write_iff (v : Nat) (e : EEPROMState) :
    (storeButtonPress v e).writes =
      e.writes + (if e.cell = v then 0 else 1) ∧
    (e.cell = v → storeButtonPress v e = e) ∧
    (e.cell ≠ v →
      (storeButtonPress v (storeButtonPress v e)).writes = e.writes + 1 ∧
      (storeButtonPress v (storeButtonPress v e)).cell = v) := by
  unfold storeButtonPress eeprom_update
  by_cases h : e.cell = v <;> simp [h]

/-- C8 witness: starting from an uninitialised cell (255), pressing store
with value 30 twice yields exactly one physical write and the cell holds
30. -/
theorem C8_store_write_iff_witness :
    (255 : Nat) ≠ 30 ∧
    (storeButtonPress 30 (storeButtonPress 30 ⟨255, 0⟩)).writes = 0 + 1 ∧
    (storeButtonPress 30 (storeButtonPress 30 ⟨255, 0⟩)).cell = 30 := by
  have h := (C8_store_write_iff 30 ⟨255, 0⟩).2.2 (by decide)
  exact ⟨by decide, h.1, h.2⟩

/-- C6: the LED chain of `loop()` computes exactly the tier function the
claim states — WARNING below the warning threshold (`stop/2` below the
warning limit, `stop − 15` otherwise), then RED, a 30-wide YELLOW band, a
30-wide GREEN band, OFF beyond — and at stop distance 30 the distances
10, 25, 45, 75, 95 give WARNING, RED, YELLOW, GREEN, OFF respectively. -/
theorem C6_tier_function :
    (∀ (d : ℚ) (stop : Nat), ledTier d stop = ledTierSpec d stop) ∧
    ledTier 10 30 = Tier.WARNING ∧ ledTier 25 30 = Tier.RED ∧
    ledTier 45 30 = Tier.YELLOW ∧ ledTier 75 30 = Tier.GREEN ∧
    ledTier 95 30 = Tier.OFF := by
  refine ⟨?_, by decide, by decide, by decide, by decide, by decide⟩
  intro d stop
  simp only [ledTier, ledTierSpec, light0_of]
  by_cases h1 : d < ((if stop < warning_limit then stop / 2 else stop - light0s : Nat) : ℚ)
  · rw [if_pos h1, if_pos h1]
  · rw [if_neg h1, if_neg h1]
    by_cases h2 : d < (stop : ℚ)
    · rw [if_pos h2, if_pos ⟨le_of_not_lt h1, h2⟩]
    · rw [if_neg h2,
        if_neg (show ¬(((if stop < warning_limit then stop / 2 else stop - light0s :
            Nat) : ℚ) ≤ d ∧ d < (stop : ℚ)) from fun hc => h2 hc.2)]

/-- C4: a wake that finds the display asleep closes the sleep window at
`dst_end` = the freshly resynced uptime, adds `dst_end − dst_start` to
`c_dst` only when `dst_end > dst_start` (nothing otherwise), and re-bases
the window start to `dst_end`; and `sleepDisplay` opens a window at the
freshly resynced uptime when the display powers down. -/
theorem C4_sleep_window (m : Nat) (s : SysState) (h : s.displaysleeping = 1) :
    (wakeDisplay m s).displaysleeping = 0 ∧
    (wakeDisplay m s).dst_end = (update_up_sec_from_millis m s).up_sec ∧
    (wakeDisplay m s).c_dst =
      (if s.dst_start < (update_up_sec_from_millis m s).up_sec
       then add32 s.c_dst ((update_up_sec_from_millis m s).up_sec - s.dst_start)
       else s.c_dst) ∧
    (wakeDisplay m s).dst_start = (update_up_sec_from_millis m s).up_sec ∧
    (sleepDisplay m s).dst_start = (update_up_sec_from_millis m s).up_sec ∧
    (sleepDisplay m s).displaysleeping = 1 := by
  unfold wakeDisplay sleepDisplay
  simp only [update_up_sec_spec, resync_diff_mi]
  simp only [h, gt_iff_lt]
  split_ifs <;> simp_all

/-- C4 witness: display asleep since uptime 2 s with 7 s already
accumulated; a wake at millis 4000 resyncs uptime from 5 s to 9 s, closes
the window (adding 7 s... i.e. `9 − 2`), and re-bases the window at 9 s. -/
theorem C4_sleep_window_witness :
    (wakeDisplay 4000
       ⟨0, 0, 5, 0, 0, 0, 1, 2, 0, 0, 7, 0, 0, 0, 0, 0, 1, 0⟩).displaysleeping = 0 ∧
    (wakeDisplay 4000
       ⟨0, 0, 5, 0, 0, 0, 1, 2, 0, 0, 7, 0, 0, 0, 0, 0, 1, 0⟩).dst_end = 9 ∧
    (wakeDisplay 4000
       ⟨0, 0, 5, 0, 0, 0, 1, 2, 0, 0, 7, 0, 0, 0, 0, 0, 1, 0⟩).c_dst = 14 ∧
    (wakeDisplay 4000
       ⟨0, 0, 5, 0, 0, 0, 1, 2, 0, 0, 7, 0, 0, 0, 0, 0, 1, 0⟩).dst_start = 9 := by
  have h := C4_sleep_window 4000
    ⟨0, 0, 5, 0, 0, 0, 1, 2, 0, 0, 7, 0, 0, 0, 0, 0, 1, 0⟩ rfl
  have hu : (update_up_sec_from_millis 4000
      ⟨0, 0, 5, 0, 0, 0, 1, 2, 0, 0, 7, 0, 0, 0, 0, 0, 1, 0⟩).up_sec = 9 := by decide
  refine ⟨h.1, ?_, ?_, ?_⟩
  · rw [h.2.1, hu]
  · rw [h.2.2.1, hu]; decide
  · rw [h.2.2.2.1, hu]

/-- C5 counterexample: with ticks at 0.5 s, 14.5 s, 16.5 s and 31.5 s the
display dims at the 16.5 s tick and sleeps at the 31.5 s tick; a manual wake
at 40.5 s adds only 9 s (the asleep span) to `c_dst`, not the 24 s that
elapsed dimmed-plus-asleep since the dimming tick. -/
theorem C5_counterexample :
    (manualWake 40500 (stationaryTick 31500 (stationaryTick 16500
        (stationaryTick 14500 (stationaryTick 500 bootState))))).c_dst = 9 ∧
    (stationaryTick 16500 (stationaryTick 14500
        (stationaryTick 500 bootState))).dimmed = 1 ∧
    (40500 - 16500) / 1000 = 24 ∧
    (9 : Nat) ≠ 24 := by
  decide

/-- C5 amended: with LED-timeout = display-timeout = 15 s, a stationary
vehicle leaves the system awake at 14 s, dimmed (LEDs suppressed, display
on) at 16 s, and asleep at 31 s with the sleep window opened at uptime
31 s; a manual wake at any later millis `w` immediately returns the system
to awake and adds exactly the elapsed **asleep** duration
`(w − 31500) / 1000` — the dimmed-but-on span is not counted — to
cumulative sleep seconds, never a negative or wrapped value. -/
theorem C5_amended_timeline (w : Nat) (hw1 : 31500 ≤ w) (hw2 : w < M32) :
    ((stationaryTick 14500 (stationaryTick 500 bootState)).timeout = 14 ∧
     (stationaryTick 14500 (stationaryTick 500 bootState)).leds_off = 0 ∧
     (stationaryTick 14500 (stationaryTick 500 bootState)).dimmed = 0 ∧
     (stationaryTick 14500 (stationaryTick 500 bootState)).displaysleeping = 0) ∧
    ((stationaryTick 16500 (stationaryTick 14500
        (stationaryTick 500 bootState))).timeout = 16 ∧
     (stationaryTick 16500 (stationaryTick 14500
        (stationaryTick 500 bootState))).leds_off = 1 ∧
     (stationaryTick 16500 (stationaryTick 14500
        (stationaryTick 500 bootState))).dimmed = 1 ∧
     (stationaryTick 16500 (stationaryTick 14500
        (stationaryTick 500 bootState))).displaysleeping = 0) ∧
    ((stationaryTick 31500 (stationaryTick 16500 (stationaryTick 14500
        (stationaryTick 500 bootState)))).timeout = 31 ∧
     (stationaryTick 31500 (stationaryTick 16500 (stationaryTick 14500
        (stationaryTick 500 bootState)))).displaysleeping = 1 ∧
     (stationaryTick 31500 (stationaryTick 16500 (stationaryTick 14500
        (stationaryTick 500 bootState)))).dst_start = 31) ∧
    ((manualWake w (stationaryTick 31500 (stationaryTick 16500
        (stationaryTick 14500 (stationaryTick 500 bootState))))).displaysleeping = 0 ∧
     (manualWake w (stationaryTick 31500 (stationaryTick 16500
        (stationaryTick 14500 (stationaryTick 500 bootState))))).leds_off = 0 ∧
     (manualWake w (stationaryTick 31500 (stationaryTick 16500
        (stationaryTick 14500 (stationaryTick 500 bootState))))).dimmed = 0 ∧
     (manualWake w (stationaryTick 31500 (stationaryTick 16500
        (stationaryTick 14500 (stationaryTick 500 bootState))))).c_dst =
       (w - 31500) / 1000) := by
  refine ⟨by decide, by decide, by decide, ?_⟩
  have hc : stationaryTick 31500 (stationaryTick 16500
      (stationaryTick 14500 (stationaryTick 500 bootState))) =
      ⟨31500, 31500, 31, 31, 31500, 31, 1, 31, 0, 0, 0, 0, 0, 500, 31, 1, 1, 31500⟩ := by
    decide
  have hw2' : w < 4294967296 := by simpa [M32] using hw2
  rw [hc]
  unfold manualWake reset_LEDTimeout wakeDisplay
  simp only [update_up_sec_spec, resync_diff_mi, add32, sub32, M32, gt_iff_lt]
  simp only [Nat.mod_eq_of_lt hw2']
  simp only [if_pos hw1]
  have hq : (31 + (w - 31500) / 1000) % 4294967296 = 31 + (w - 31500) / 1000 := by omega
  simp only [hq]
  split_ifs with h31 <;> dsimp only <;> omega

/-- C5 amended witness: a manual wake at millis 40500 — 9 s after the
display fell asleep — returns the system to awake and adds exactly 9 s. -/
theorem C5_amended_timeline_witness :
    (31500 : Nat) ≤ 40500 ∧ (40500 : Nat) < M32 ∧
    ((manualWake 40500 (stationaryTick 31500 (stationaryTick 16500
        (stationaryTick 14500 (stationaryTick 500 bootState))))).displaysleeping = 0 ∧
     (manualWake 40500 (stationaryTick 31500 (stationaryTick 16500
        (stationaryTick 14500 (stationaryTick 500 bootState))))).leds_off = 0 ∧
     (manualWake 40500 (stationaryTick 31500 (stationaryTick 16500
        (stationaryTick 14500 (stationaryTick 500 bootState))))).dimmed = 0 ∧
     (manualWake 40500 (stationaryTick 31500 (stationaryTick 16500
        (stationaryTick 14500 (stationaryTick 500 bootState))))).c_dst =
       (40500 - 31500) / 1000) :=
  ⟨by decide, by decide,
   (C5_amended_timeline 40500 (by decide) (by decide)).2.2.2⟩

end ParkingAssist
